import Mathlib

/-!
Shallow embedding of the GPU surface bridge of the agus-maps-flutter
repository: the ANGLE (Windows, `src/src/agus_angle_context_factory.cpp`)
and EGL/mobile (`src/src/agus_ogl.cpp`) graphics-context factories, the
Windows surface lifecycle layer (`src/src/agus_maps_flutter_win.cpp`) and
the Flutter plugin descriptor callback
(`src/windows/agus_maps_flutter_plugin.cpp`).

Native handles (EGL contexts, EGL surfaces, D3D11 textures, Windows
HANDLEs) are modelled as natural-number identities drawn from per-object
allocation counters, so that object identity ("the same instance",
"a freshly duplicated handle") and allocation order ("a strictly newer
generation") are expressible.  `Option Nat` models a nullable handle
(`none` = `nullptr` / `EGL_NO_SURFACE` / `EGL_NO_CONTEXT`).  GPU and OS
calls that can fail are modelled on their success path except where a
claim is about the failure branch, in which case the branch outcome is an
explicit parameter (e.g. `dupOk` for `DuplicateHandle`).
-/

namespace agus

/-- One `AgusAngleContext` / `AgusOGLContext` instance: the native EGL
context handle (its identity), the bound drawable surface
(`m_surface`, `none` = `EGL_NO_SURFACE`), the atomic
`m_presentAvailable` flag, and the context it was created sharing with
(`contextToShareWith` argument of the constructor, `none` = `nullptr`). -/
structure GfxContext where
  id : Nat
  surface : Option Nat
  presentAvailable : Bool
  sharedWith : Option Nat
  deriving Repr, DecidableEq

/-- Constructor body of `AgusAngleContext` / `AgusOGLContext`
(`agus_angle_context_factory.cpp:73-96`, `agus_ogl.cpp:25-41`):
the new context is bound to the given surface, starts with
`m_presentAvailable = true`, and records the share partner. -/
def GfxContext.construct (id : Nat) (surface : Option Nat)
    (shareWith : Option Nat) : GfxContext :=
  { id := id, surface := surface, presentAvailable := true,
    sharedWith := shareWith }

/-- Body of `AgusAngleContext::SetPresentAvailable`
(`agus_angle_context_factory.cpp:199-202`) and
`AgusOGLContext::SetPresentAvailable` (`agus_ogl.cpp:88`). -/
def GfxContext.SetPresentAvailable (c : GfxContext) (available : Bool) :
    GfxContext :=
  { c with presentAvailable := available }

/-- Body of `AgusAngleContext::SetSurface`
(`agus_angle_context_factory.cpp:209-212`, `agus_ogl.cpp:95`). -/
def GfxContext.SetSurface (c : GfxContext) (surface : Option Nat) :
    GfxContext :=
  { c with surface := surface }

/-- `AgusAngleContext::Validate` (`agus_angle_context_factory.cpp:204-207`)
and `AgusOGLContext::Validate` (`agus_ogl.cpp:90-93`):
`return m_presentAvailable && eglGetCurrentContext() != EGL_NO_CONTEXT;`.
`current` is the calling thread's `eglGetCurrentContext()` result
(`none` = `EGL_NO_CONTEXT`). -/
def GfxContext.Validate (c : GfxContext) (current : Option Nat) : Bool :=
  c.presentAvailable && current.isSome

/-- Outcome of one `WaitForInitialization` call.  `immediate` and
`signalled` return to the caller at once; `blocked` means the call parks
on `m_initializationCondition` and returns only once a later call sets
`m_isInitialized` and notifies. -/
inductive WaitOutcome where
  | immediate
  | signalled
  | blocked
  deriving Repr, DecidableEq

/-- Events emitted while the ANGLE factory reallocates its shared render
target (`CreateSharedTexture`, `CreatePbufferSurface`, `Resize`) and the
Windows lifecycle layer reacts, in the order the corresponding native
calls execute in the source. -/
inductive REv where
  | releaseOldTexture
  | closeOldHandle
  | createNewTexture
  | exportNewHandle
  | destroyOldSurface
  | createNewSurface
  | bindDrawSurface
  | notifyEngineSize
  deriving Repr, DecidableEq

/-- State of one `AgusAngleContextFactory`
(`agus_angle_context_factory.hpp:89-123`).  `eglDisplayValid` models
`m_eglDisplay != EGL_NO_DISPLAY`; `sharedTexture`, `sharedHandle` and
`pbufferSurface` carry the identities of `m_sharedTexture`,
`m_sharedHandle` and `m_pbufferSurface` (`none` = null); `texWidth` and
`texHeight` are the dimensions the current shared texture was created
with; `nextId` is the allocation counter handing out fresh native-object
identities. -/
structure AngleFactory where
  eglDisplayValid : Bool
  width : Int
  height : Int
  sharedTexture : Option Nat
  sharedHandle : Option Nat
  texWidth : Int
  texHeight : Int
  pbufferSurface : Option Nat
  drawContext : Option GfxContext
  uploadContext : Option GfxContext
  isValid : Bool
  isInitialized : Bool
  initializationCounter : Nat
  nextId : Nat
  deriving Repr, DecidableEq

namespace AngleFactory

/-- `AgusAngleContextFactory::CreateSharedTexture`
(`agus_angle_context_factory.cpp:504-557`), success path of the D3D11
calls.  The body first releases the existing texture
(`m_sharedTexture.Reset()`) and closes the existing shared handle
(`CloseHandle(m_sharedHandle)`), then creates the new
`ID3D11Texture2D` and exports its shared handle.  The emitted event list
records that order. -/
def CreateSharedTexture (f : AngleFactory) (w h : Int) :
    AngleFactory × List REv :=
  let evs :=
    (if f.sharedTexture.isSome then [REv.releaseOldTexture] else []) ++
    (if f.sharedHandle.isSome then [REv.closeOldHandle] else [])
  let tex := f.nextId
  let hnd := f.nextId + 1
  ({ f with sharedTexture := some tex, sharedHandle := some hnd,
            texWidth := w, texHeight := h, nextId := f.nextId + 2 },
   evs ++ [REv.createNewTexture, REv.exportNewHandle])

/-- `AgusAngleContextFactory::CreatePbufferSurface`
(`agus_angle_context_factory.cpp:559-623`), success path: the existing
surface is destroyed first, then a new Pbuffer surface is created (the
client-buffer path and the plain-Pbuffer fallback both yield one new
surface). -/
def CreatePbufferSurface (f : AngleFactory) : AngleFactory × List REv :=
  let evs := if f.pbufferSurface.isSome then [REv.destroyOldSurface] else []
  ({ f with pbufferSurface := some f.nextId, nextId := f.nextId + 1 },
   evs ++ [REv.createNewSurface])

/-- `AgusAngleContextFactory::AgusAngleContextFactory(width, height)`
(`agus_angle_context_factory.cpp:227-258`), success path:
D3D11 and ANGLE initialize, the first shared texture and Pbuffer
surface are created, and `m_isValid` is set. -/
def construct (w h : Int) : AngleFactory :=
  let f0 : AngleFactory :=
    { eglDisplayValid := true, width := w, height := h,
      sharedTexture := none, sharedHandle := none,
      texWidth := 0, texHeight := 0, pbufferSurface := none,
      drawContext := none, uploadContext := none,
      isValid := false, isInitialized := false,
      initializationCounter := 0, nextId := 0 }
  let f1 := (f0.CreateSharedTexture w h).1
  let f2 := (f1.CreatePbufferSurface).1
  { f2 with isValid := true }

/-- `AgusAngleContextFactory::GetResourcesUploadContext`
(`agus_angle_context_factory.cpp:642-657`): on first call (and with a
valid display) creates a 1x1 Pbuffer surface and a context sharing with
`nullptr`; otherwise returns the existing pointer (possibly null).
The second component is the returned `dp::GraphicsContext *` as a
context identity. -/
def GetResourcesUploadContext (f : AngleFactory) :
    AngleFactory × Option Nat :=
  if f.uploadContext.isNone && f.eglDisplayValid then
    let surf := f.nextId
    let c := GfxContext.construct (f.nextId + 1) (some surf) none
    ({ f with uploadContext := some c, nextId := f.nextId + 2 }, some c.id)
  else
    (f, f.uploadContext.map (·.id))

/-- `AgusAngleContextFactory::GetDrawContext`
(`agus_angle_context_factory.cpp:630-640`): on first call (and with a
valid display) first calls `GetResourcesUploadContext()`, then creates
the draw context bound to `m_pbufferSurface`, sharing with
`m_uploadContext`. -/
def GetDrawContext (f : AngleFactory) : AngleFactory × Option Nat :=
  if f.drawContext.isNone && f.eglDisplayValid then
    let f1 := (f.GetResourcesUploadContext).1
    let c := GfxContext.construct f1.nextId f1.pbufferSurface
      (f1.uploadContext.map (·.id))
    ({ f1 with drawContext := some c, nextId := f1.nextId + 1 }, some c.id)
  else
    (f, f.drawContext.map (·.id))

/-- `AgusAngleContextFactory::IsDrawContextCreated`
(`agus_angle_context_factory.cpp:659-662`). -/
def IsDrawContextCreated (f : AngleFactory) : Bool :=
  f.drawContext.isSome

/-- `AgusAngleContextFactory::IsUploadContextCreated`
(`agus_angle_context_factory.cpp:664-667`). -/
def IsUploadContextCreated (f : AngleFactory) : Bool :=
  f.uploadContext.isSome

/-- `AgusAngleContextFactory::WaitForInitialization`
(`agus_angle_context_factory.cpp:669-681`), one call under the mutex:
if `m_isInitialized` is already set the call returns at once; otherwise
it increments `m_initializationCounter`; if the counter reaches 2 it
sets the flag, notifies all waiters and returns; otherwise it waits on
the condition variable (predicate `m_isInitialized`) and returns only
after a later call sets the flag. -/
def WaitForInitialization (f : AngleFactory) :
    AngleFactory × WaitOutcome :=
  if f.isInitialized then
    (f, WaitOutcome.immediate)
  else
    let c := f.initializationCounter + 1
    if 2 ≤ c then
      ({ f with initializationCounter := c, isInitialized := true },
       WaitOutcome.signalled)
    else
      ({ f with initializationCounter := c }, WaitOutcome.blocked)

/-- `AgusAngleContextFactory::SetPresentAvailable`
(`agus_angle_context_factory.cpp:683-688`): forwards to the draw context
if it exists, otherwise does nothing. -/
def SetPresentAvailable (f : AngleFactory) (available : Bool) :
    AngleFactory :=
  match f.drawContext with
  | some c => { f with drawContext := some (c.SetPresentAvailable available) }
  | none => f

/-- `AgusAngleContextFactory::Resize`
(`agus_angle_context_factory.cpp:690-717`), success path of the two
reallocation helpers: exact-equality no-op, otherwise update
`m_width`/`m_height`, recreate the shared texture and the Pbuffer
surface, and rebind the existing draw context surface via
`SetSurface`. -/
def Resize (f : AngleFactory) (w h : Int) : AngleFactory × List REv :=
  if w = f.width ∧ h = f.height then
    (f, [])
  else
    let f1 := { f with width := w, height := h }
    let p2 := f1.CreateSharedTexture w h
    let p3 := p2.1.CreatePbufferSurface
    match p3.1.drawContext with
    | some c =>
        ({ p3.1 with drawContext := some (c.SetSurface p3.1.pbufferSurface) },
         p2.2 ++ p3.2 ++ [REv.bindDrawSurface])
    | none => (p3.1, p2.2 ++ p3.2)

end AngleFactory

/-- State of one `AgusOGLContextFactory` (`agus_ogl.cpp:118-212`):
window surface, 1x1 pixel-buffer surface, the two lazily created
contexts and the identity allocation counter. -/
structure OGLFactory where
  windowSurface : Option Nat
  pixelbufferSurface : Option Nat
  drawContext : Option GfxContext
  uploadContext : Option GfxContext
  nextId : Nat
  deriving Repr, DecidableEq

namespace OGLFactory

/-- `AgusOGLContextFactory::AgusOGLContextFactory` (`agus_ogl.cpp:118-132`),
success path: the window surface and the 1x1 pixel-buffer surface are
created; no context exists yet. -/
def construct : OGLFactory :=
  { windowSurface := some 0, pixelbufferSurface := some 1,
    drawContext := none, uploadContext := none, nextId := 2 }

/-- `AgusOGLContextFactory::GetDrawContext` (`agus_ogl.cpp:214-221`):
`if (!m_drawContext) m_drawContext = new AgusOGLContext(m_display,
m_windowSurface, m_config, m_uploadContext);` — it does NOT create the
upload context first; the draw context shares with whatever
`m_uploadContext` currently is (possibly null). -/
def GetDrawContext (f : OGLFactory) : OGLFactory × Option Nat :=
  if f.drawContext.isNone then
    let c := GfxContext.construct f.nextId f.windowSurface
      (f.uploadContext.map (·.id))
    ({ f with drawContext := some c, nextId := f.nextId + 1 }, some c.id)
  else
    (f, f.drawContext.map (·.id))

/-- `AgusOGLContextFactory::GetResourcesUploadContext`
(`agus_ogl.cpp:223-230`): lazily creates the upload context bound to the
pixel-buffer surface, sharing with the current `m_drawContext`
(possibly null). -/
def GetResourcesUploadContext (f : OGLFactory) : OGLFactory × Option Nat :=
  if f.uploadContext.isNone then
    let c := GfxContext.construct f.nextId f.pixelbufferSurface
      (f.drawContext.map (·.id))
    ({ f with uploadContext := some c, nextId := f.nextId + 1 }, some c.id)
  else
    (f, f.uploadContext.map (·.id))

/-- `AgusOGLContextFactory::IsDrawContextCreated` (`agus_ogl.cpp:232`). -/
def IsDrawContextCreated (f : OGLFactory) : Bool :=
  f.drawContext.isSome

/-- `AgusOGLContextFactory::IsUploadContextCreated` (`agus_ogl.cpp:233`). -/
def IsUploadContextCreated (f : OGLFactory) : Bool :=
  f.uploadContext.isSome

/-- `AgusOGLContextFactory::WaitForInitialization` (`agus_ogl.cpp:235-238`):
the body is `return;` — it changes no state and returns immediately,
whatever the construction state of the two contexts. -/
def WaitForInitialization (f : OGLFactory) : OGLFactory × WaitOutcome :=
  (f, WaitOutcome.immediate)

/-- `AgusOGLContextFactory::SetPresentAvailable` (`agus_ogl.cpp:240-242`). -/
def SetPresentAvailable (f : OGLFactory) (available : Bool) : OGLFactory :=
  match f.drawContext with
  | some c => { f with drawContext := some (c.SetPresentAvailable available) }
  | none => f

end OGLFactory

/-- Operations a client may invoke on a context factory, used to range
over "every call order". -/
inductive FCmd where
  | getDraw
  | getUpload
  | wait
  | setPresent (b : Bool)
  | resize (w h : Int)
  deriving Repr, DecidableEq

/-- One client call on the ANGLE factory (result values discarded). -/
def AngleFactory.step (f : AngleFactory) : FCmd → AngleFactory
  | FCmd.getDraw => (f.GetDrawContext).1
  | FCmd.getUpload => (f.GetResourcesUploadContext).1
  | FCmd.wait => (f.WaitForInitialization).1
  | FCmd.setPresent b => f.SetPresentAvailable b
  | FCmd.resize w h => (f.Resize w h).1

/-- A sequence of client calls on the ANGLE factory. -/
def AngleFactory.run (f : AngleFactory) : List FCmd → AngleFactory
  | [] => f
  | c :: cs => (f.step c).run cs

/-- One client call on the OGL factory.  The OGL factory has no `Resize`
operation; `resize` is not part of its interface and leaves it alone. -/
def OGLFactory.step (f : OGLFactory) : FCmd → OGLFactory
  | FCmd.getDraw => (f.GetDrawContext).1
  | FCmd.getUpload => (f.GetResourcesUploadContext).1
  | FCmd.wait => (f.WaitForInitialization).1
  | FCmd.setPresent b => f.SetPresentAvailable b
  | FCmd.resize _ _ => f

/-- A sequence of client calls on the OGL factory. -/
def OGLFactory.run (f : OGLFactory) : List FCmd → OGLFactory
  | [] => f
  | c :: cs => (f.step c).run cs

/-! ## Windows surface lifecycle layer

State of `src/src/agus_maps_flutter_win.cpp` (the file-scope globals
`g_surfaceWidth`, `g_surfaceHeight`, `g_framework`, `g_angleFactory`,
`g_drapeEngineCreated`, `g_platformInitialized`) combined with the
plugin members of `AgusMapsFlutterPlugin`
(`src/windows/agus_maps_flutter_plugin.h:56-63`: `surface_width_`,
`surface_height_`), and a counter `handleCtr` allocating the identities
of handles produced by `DuplicateHandle`. -/

/-- Combined state of the Windows lifecycle layer and the plugin. -/
structure WinState where
  /-- plugin member `surface_width_`, set only in
  `AgusMapsFlutterPlugin::CreateSurface`. -/
  surfaceWidth : Int
  /-- plugin member `surface_height_`, set only in
  `AgusMapsFlutterPlugin::CreateSurface`. -/
  surfaceHeight : Int
  /-- global `g_surfaceWidth` in `agus_maps_flutter_win.cpp`. -/
  gSurfaceWidth : Int
  /-- global `g_surfaceHeight` in `agus_maps_flutter_win.cpp`. -/
  gSurfaceHeight : Int
  /-- global `g_platformInitialized`. -/
  platformInitialized : Bool
  /-- whether `g_framework` is non-null. -/
  frameworkExists : Bool
  /-- global `g_drapeEngineCreated`. -/
  drapeEngineCreated : Bool
  /-- `g_factory` / `g_angleFactory` (`none` = null). -/
  factory : Option AngleFactory
  /-- allocation counter for handles returned by `DuplicateHandle`. -/
  handleCtr : Nat
  deriving Repr, DecidableEq

/-- Initial state: platform paths initialized (`comaps_init_paths` has
run), no surface, no factory, no engine. -/
def WinState.init : WinState :=
  { surfaceWidth := 0, surfaceHeight := 0,
    gSurfaceWidth := 0, gSurfaceHeight := 0,
    platformInitialized := true, frameworkExists := false,
    drapeEngineCreated := false, factory := none, handleCtr := 0 }

/-- `createDrapeEngineIfNeeded` (`agus_maps_flutter_win.cpp:238-284`):
gated on `g_drapeEngineCreated`, `g_framework`, positive dimensions and
`g_factory`; on success sets `g_drapeEngineCreated = true`.  The engine
construction itself is external. -/
def createDrapeEngineIfNeeded (s : WinState) (w h : Int) : WinState :=
  if s.drapeEngineCreated || !s.frameworkExists then s
  else if w ≤ 0 || h ≤ 0 then s
  else if s.factory.isNone then s
  else { s with drapeEngineCreated := true }

/-- `comaps_create_surface` (`agus_maps_flutter_win.cpp:427-552`),
success path: records the dimensions in the globals, creates the
`Framework` if absent, constructs a valid `AgusAngleContextFactory`,
hands it to the thread-safe factory wrapper, and creates the drape
engine.  Returns 0. -/
def comaps_create_surface (s : WinState) (w h : Int) : WinState × Int :=
  if !s.platformInitialized then
    (s, -1)
  else
    let s1 := { s with gSurfaceWidth := w, gSurfaceHeight := h,
                       frameworkExists := true }
    let fac := AngleFactory.construct w h
    let s2 := { s1 with factory := some fac }
    (createDrapeEngineIfNeeded s2 w h, 0)

/-- `comaps_get_shared_handle` (`agus_maps_flutter_win.cpp:555-593`):
returns `g_angleFactory->GetSharedTextureHandle()` when the factory
exists, else null. -/
def comaps_get_shared_handle (s : WinState) : Option Nat :=
  match s.factory with
  | some f => f.sharedHandle
  | none => none

/-- `comaps_resize_surface` (`agus_maps_flutter_win.cpp:596-615`):
exact-equality no-op against the globals; otherwise updates the
globals, resizes the factory if present, and calls
`g_framework->OnSize(width, height)` when the framework and the drape
engine exist (event `notifyEngineSize`). -/
def comaps_resize_surface (s : WinState) (w h : Int) :
    WinState × List REv :=
  if w = s.gSurfaceWidth ∧ h = s.gSurfaceHeight then
    (s, [])
  else
    let s1 := { s with gSurfaceWidth := w, gSurfaceHeight := h }
    let p :=
      match s1.factory with
      | some f =>
          let q := f.Resize w h
          ({ s1 with factory := some q.1 }, q.2)
      | none => (s1, ([] : List REv))
    if p.1.frameworkExists && p.1.drapeEngineCreated then
      (p.1, p.2 ++ [REv.notifyEngineSize])
    else
      p

/-- `comaps_destroy_surface` (`agus_maps_flutter_win.cpp:618-628`):
disables rendering on the engine, destroys the factory
(`g_factory.reset()`, which also destroys `g_angleFactory`), clears the
raw pointer and the drape-engine flag. -/
def comaps_destroy_surface (s : WinState) : WinState :=
  { s with factory := none, drapeEngineCreated := false }

/-- Pixel format of the exported descriptor
(`kFlutterDesktopPixelFormatBGRA8888`,
`agus_maps_flutter_plugin.cpp:404`). -/
inductive PixelFormat where
  | BGRA8888
  deriving Repr, DecidableEq

/-- The `FlutterDesktopGpuSurfaceDescriptor` fields the obtain callback
fills in (`agus_maps_flutter_plugin.cpp:398-405`). -/
structure GpuSurfaceDescriptor where
  handle : Nat
  width : Int
  height : Int
  visibleWidth : Int
  visibleHeight : Int
  format : PixelFormat
  releaseContext : Nat
  deriving Repr, DecidableEq

/-- The descriptor's `release_callback`
(`agus_maps_flutter_plugin.cpp:406-410`): invoked with
`release_context`, it closes exactly that handle
(`CloseHandle(reinterpret_cast<HANDLE>(ctx))`).  The result is the
handle that gets closed. -/
def descriptorReleaseCloses (d : GpuSurfaceDescriptor) : Option Nat :=
  some d.releaseContext

/-- The plugin's `ObtainDescriptorCallback`
(`agus_maps_flutter_plugin.cpp:366-412`): fetches the current shared
handle via `comaps_get_shared_handle`; if it is null, returns null; it
then duplicates the handle (`DuplicateHandle`; `dupOk` is the success
of that OS call) — on failure returns null; otherwise fills the
descriptor with the freshly duplicated handle, the plugin's cached
`surface_width_`/`surface_height_`, the BGRA8888 format, and a release
callback that closes the duplicated handle. -/
def ObtainDescriptor (s : WinState) (dupOk : Bool) :
    WinState × Option GpuSurfaceDescriptor :=
  match comaps_get_shared_handle s with
  | none => (s, none)
  | some _ =>
      if dupOk then
        let d : GpuSurfaceDescriptor :=
          { handle := s.handleCtr,
            width := s.surfaceWidth, height := s.surfaceHeight,
            visibleWidth := s.surfaceWidth,
            visibleHeight := s.surfaceHeight,
            format := PixelFormat.BGRA8888,
            releaseContext := s.handleCtr }
        ({ s with handleCtr := s.handleCtr + 1 }, some d)
      else
        (s, none)

/-- `AgusMapsFlutterPlugin::CreateSurface`
(`agus_maps_flutter_plugin.cpp:316-449`): stores the dimensions in
`surface_width_`/`surface_height_`, then calls
`comaps_create_surface`; texture registration is external. -/
def PluginCreateSurface (s : WinState) (w h : Int) : WinState :=
  let s1 := { s with surfaceWidth := w, surfaceHeight := h }
  (comaps_create_surface s1 w h).1

/-- The plugin's `resizeSurface` method-call handler
(`agus_maps_flutter_plugin.cpp:171-196`): calls
`comaps_resize_surface(width, height)` and nothing else — in
particular it does not update `surface_width_`/`surface_height_`. -/
def PluginResizeSurface (s : WinState) (w h : Int) :
    WinState × List REv :=
  comaps_resize_surface s w h

/-- The plugin's `destroySurface` method-call handler
(`agus_maps_flutter_plugin.cpp:197-204`): calls
`comaps_destroy_surface` and unregisters the texture (external). -/
def PluginDestroySurface (s : WinState) : WinState :=
  comaps_destroy_surface s

/-- External calls into the lifecycle layer, used to range over every
call sequence. -/
inductive SysCmd where
  | create (w h : Int)
  | resize (w h : Int)
  | destroy
  | obtain (dupOk : Bool)
  deriving Repr, DecidableEq

/-- One external lifecycle call (results discarded). -/
def WinState.stepCmd (s : WinState) : SysCmd → WinState
  | SysCmd.create w h => PluginCreateSurface s w h
  | SysCmd.resize w h => (PluginResizeSurface s w h).1
  | SysCmd.destroy => PluginDestroySurface s
  | SysCmd.obtain dupOk => (ObtainDescriptor s dupOk).1

/-- A sequence of external lifecycle calls. -/
def WinState.runCmds (s : WinState) : List SysCmd → WinState
  | [] => s
  | c :: cs => (s.stepCmd c).runCmds cs

/-! ## Frame notifier (`agus_maps_flutter_win.cpp:193-236`) -/

/-- State of the frame notifier: `g_lastFrameNotification` (a
`steady_clock` time point, in milliseconds) and the single-flight flag
`g_frameNotificationPending`. -/
structure NotifierState where
  lastNotification : Nat
  pending : Bool
  deriving Repr, DecidableEq

/-- `kMinFrameInterval = std::chrono::milliseconds(16)`
(`agus_maps_flutter_win.cpp:195`). -/
def kMinFrameInterval : Nat := 16

/-- `notifyFlutterFrameReady` (`agus_maps_flutter_win.cpp:202-236`) at
monotonic time `now`, with `cbRegistered` = `g_frameReadyCallback` set:
drops the event (state unchanged, nothing delivered) when the elapsed
time since the last notification is below `kMinFrameInterval` or a
notification is already in flight; otherwise records `now`, invokes the
registered callback, and clears the flag.  The second component is
whether the external callback was invoked. -/
def notifyFlutterFrameReady (s : NotifierState) (cbRegistered : Bool)
    (now : Nat) : NotifierState × Bool :=
  if now - s.lastNotification < kMinFrameInterval then
    (s, false)
  else if s.pending then
    (s, false)
  else
    ({ lastNotification := now, pending := false }, cbRegistered)

/-- Feed a sequence of frame-ready event timestamps through the
notifier; the second component counts deliveries to the external
callback. -/
def runNotifier (s : NotifierState) (cbRegistered : Bool) :
    List Nat → NotifierState × Nat
  | [] => (s, 0)
  | t :: ts =>
      let p := notifyFlutterFrameReady s cbRegistered t
      let q := runNotifier p.1 cbRegistered ts
      (q.1, (if p.2 then 1 else 0) + q.2)

/-! ## Iterated context requests (for idempotence over N calls) -/

/-- `n + 1` successive `GetDrawContext` calls on the ANGLE factory,
returning the final state and the value returned by the last call. -/
def AngleFactory.getDrawN (f : AngleFactory) : Nat → AngleFactory × Option Nat
  | 0 => f.GetDrawContext
  | n + 1 => ((f.getDrawN n).1).GetDrawContext

/-- `n + 1` successive `GetResourcesUploadContext` calls on the ANGLE
factory. -/
def AngleFactory.getUploadN (f : AngleFactory) :
    Nat → AngleFactory × Option Nat
  | 0 => f.GetResourcesUploadContext
  | n + 1 => ((f.getUploadN n).1).GetResourcesUploadContext

/-- `n + 1` successive `GetDrawContext` calls on the OGL factory. -/
def OGLFactory.getDrawN (f : OGLFactory) : Nat → OGLFactory × Option Nat
  | 0 => f.GetDrawContext
  | n + 1 => ((f.getDrawN n).1).GetDrawContext

/-- `n + 1` successive `GetResourcesUploadContext` calls on the OGL
factory. -/
def OGLFactory.getUploadN (f : OGLFactory) : Nat → OGLFactory × Option Nat
  | 0 => f.GetResourcesUploadContext
  | n + 1 => ((f.getUploadN n).1).GetResourcesUploadContext

/-! ## Concrete lifecycle scenario
`Create(800,600,1.0)`, `ObtainCurrentFrameDescriptor`,
`Resize(1024,768)`, `ObtainCurrentFrameDescriptor`, `Destroy()`,
`ObtainCurrentFrameDescriptor` (the density argument `1.0` only flows
into the drape-engine visual parameters and affects none of the
modelled observables). -/

/-- State after `Create(800, 600, 1.0)`. -/
def lcS1 : WinState := PluginCreateSurface WinState.init 800 600

/-- First `ObtainCurrentFrameDescriptor` (handle duplication succeeds). -/
def lcO1 : WinState × Option GpuSurfaceDescriptor := ObtainDescriptor lcS1 true

/-- State after `Resize(1024, 768)`. -/
def lcS2 : WinState := (PluginResizeSurface lcO1.1 1024 768).1

/-- Second `ObtainCurrentFrameDescriptor`. -/
def lcO2 : WinState × Option GpuSurfaceDescriptor := ObtainDescriptor lcS2 true

/-- State after `Destroy()`. -/
def lcS3 : WinState := PluginDestroySurface lcO2.1

/-- Third `ObtainCurrentFrameDescriptor`. -/
def lcO3 : WinState × Option GpuSurfaceDescriptor := ObtainDescriptor lcS3 true

/-- An ANGLE factory freshly constructed at 800x600 whose draw context
has been requested once (so a render target, an exported handle and a
bound draw context all exist). -/
def demoDrawFactory : AngleFactory :=
  ((AngleFactory.construct 800 600).GetDrawContext).1

/-! ## Theorems -/

/-- C1: evaluation of the lifecycle scenario
`Create(800,600,1.0)`, `ObtainCurrentFrameDescriptor`,
`Resize(1024,768)`, `ObtainCurrentFrameDescriptor`, `Destroy()`,
`ObtainCurrentFrameDescriptor` on the code.  The first descriptor is
non-null with width 800 and height 600, and the descriptor after
`Destroy()` is null, as the claim states.  After `Resize(1024,768)` the
shared render target has indeed been reallocated at 1024x768 with a
strictly newer generation (texture identity 3 replacing 0), but the
descriptor the plugin returns still reports width 800 and height 600 —
not 1024x768 as the claim requires — because the plugin's `resizeSurface`
handler never updates the cached `surface_width_`/`surface_height_`
members that the obtain callback copies into the descriptor. -/
theorem lifecycle_scenario_evaluation :
    lcO1.2.isSome = true ∧
    lcO1.2.map (·.width) = some 800 ∧
    lcO1.2.map (·.height) = some 600 ∧
    lcO2.2.isSome = true ∧
    lcO2.2.map (·.width) = some 800 ∧
    lcO2.2.map (·.height) = some 600 ∧
    lcS2.factory.map (·.texWidth) = some 1024 ∧
    lcS2.factory.map (·.texHeight) = some 768 ∧
    lcS1.factory.bind (·.sharedTexture) = some 0 ∧
    lcS2.factory.bind (·.sharedTexture) = some 3 ∧
    lcO3.2 = none := by
  decide

/-- C2 counterexample: it is not true that every `WaitForInitialization`
call either blocks or happens in a state where both contexts have been
constructed — on a freshly constructed OGL factory (empty call
sequence), the call returns immediately while neither context exists,
because `AgusOGLContextFactory::WaitForInitialization` is an
unconditional no-op. -/
theorem wait_returns_before_construction_cex :
    ¬ ∀ (cmds : List FCmd),
        ((OGLFactory.construct.run cmds).WaitForInitialization).2 =
            WaitOutcome.blocked ∨
        ((OGLFactory.construct.run cmds).IsUploadContextCreated = true ∧
         (OGLFactory.construct.run cmds).IsDrawContextCreated = true) := by
  intro h
  have h0 := h []
  revert h0
  decide

/-- C2 amended: the ANGLE factory's `WaitForInitialization` implements
the two-party call barrier exactly as described — the first call (flag
clear, counter 0) increments the counter to 1 and blocks; a call that
brings the counter to 2 sets the flag, notifies, and returns; once the
flag is set every call returns immediately with no state change; and a
call can return without blocking only when the flag was already set or
it is the call that brings the counter to the threshold 2.  The OGL
factory's `WaitForInitialization`, by contrast, is an unconditional
no-op that returns immediately in every state, so on that factory a
call can return before either context has been constructed. -/
theorem wait_barrier_amended (f : AngleFactory) :
    (f.isInitialized = true →
      f.WaitForInitialization = (f, WaitOutcome.immediate)) ∧
    (f.isInitialized = false → f.initializationCounter = 0 →
      f.WaitForInitialization =
        ({ f with initializationCounter := 1 }, WaitOutcome.blocked)) ∧
    (f.isInitialized = false → 1 ≤ f.initializationCounter →
      f.WaitForInitialization =
        ({ f with initializationCounter := f.initializationCounter + 1,
                  isInitialized := true }, WaitOutcome.signalled)) ∧
    ((f.WaitForInitialization).2 ≠ WaitOutcome.blocked →
      f.isInitialized = true ∨ 2 ≤ f.initializationCounter + 1) ∧
    (∀ (g : OGLFactory),
      g.WaitForInitialization = (g, WaitOutcome.immediate)) := by
  refine ⟨?_, ?_, ?_, ?_, fun g => rfl⟩
  · intro h
    simp [AngleFactory.WaitForInitialization, h]
  · intro h h0
    simp [AngleFactory.WaitForInitialization, h, h0]
  · intro h h1
    have h2 : 2 ≤ f.initializationCounter + 1 := by omega
    simp [AngleFactory.WaitForInitialization, h, h2]
  · intro hret
    by_cases hi : f.isInitialized
    · exact Or.inl hi
    · right
      by_contra hc
      have hb : f.WaitForInitialization =
          ({ f with initializationCounter := f.initializationCounter + 1 },
           WaitOutcome.blocked) := by
        simp [AngleFactory.WaitForInitialization, hi, hc]
      rw [hb] at hret
      exact hret rfl

/-- C2 witness: on a freshly constructed ANGLE factory (flag clear,
counter 0), the first `WaitForInitialization` call increments the
counter to 1 and blocks. -/
theorem wait_barrier_amended_witness :
    (AngleFactory.construct 1 1).isInitialized = false ∧
    (AngleFactory.construct 1 1).initializationCounter = 0 ∧
    (AngleFactory.construct 1 1).WaitForInitialization =
      ({ AngleFactory.construct 1 1 with initializationCounter := 1 },
       WaitOutcome.blocked) :=
  ⟨by decide, by decide,
   (wait_barrier_amended (AngleFactory.construct 1 1)).2.1
     (by decide) (by decide)⟩

/-- C3 counterexample: it is not true that for every factory and every
call order the draw context implies the upload context — on the OGL
factory, calling `GetDrawContext` first creates the draw context while
the upload context still does not exist, because
`AgusOGLContextFactory::GetDrawContext` does not ensure the upload
context first. -/
theorem draw_before_upload_cex :
    ¬ ∀ (cmds : List FCmd),
        (OGLFactory.construct.run cmds).IsDrawContextCreated = true →
        (OGLFactory.construct.run cmds).IsUploadContextCreated = true := by
  intro h
  have h0 := h [FCmd.getDraw]
  revert h0
  decide

/-- Helper: a `GetResourcesUploadContext` call on an ANGLE factory with
a valid display leaves the upload context existing. -/
theorem angle_getUpload_isSome (f : AngleFactory)
    (hv : f.eglDisplayValid = true) :
    ((f.GetResourcesUploadContext).1).uploadContext.isSome = true := by
  cases hu : f.uploadContext <;>
    simp [AngleFactory.GetResourcesUploadContext, hu, hv]

/-- Helper: the ANGLE factory resize never changes the upload context. -/
theorem angle_resize_uploadContext (f : AngleFactory) (w h : Int) :
    ((f.Resize w h).1).uploadContext = f.uploadContext := by
  by_cases hwh : w = f.width ∧ h = f.height <;>
    cases hd : f.drawContext <;>
      simp [AngleFactory.Resize, AngleFactory.CreateSharedTexture,
            AngleFactory.CreatePbufferSurface, hd, hwh]

/-- Helper: the ANGLE factory resize preserves whether a draw context
exists (it rebinds the existing one, never creates or destroys one). -/
theorem angle_resize_draw_isSome (f : AngleFactory) (w h : Int) :
    ((f.Resize w h).1).drawContext.isSome = f.drawContext.isSome := by
  by_cases hwh : w = f.width ∧ h = f.height <;>
    cases hd : f.drawContext <;>
      simp [AngleFactory.Resize, AngleFactory.CreateSharedTexture,
            AngleFactory.CreatePbufferSurface, hd, hwh]

/-- Helper: `SetPresentAvailable` on the ANGLE factory preserves whether
a draw context exists and never touches the upload context. -/
theorem angle_setPresent_contexts (f : AngleFactory) (b : Bool) :
    (f.SetPresentAvailable b).drawContext.isSome = f.drawContext.isSome ∧
    (f.SetPresentAvailable b).uploadContext = f.uploadContext := by
  cases hd : f.drawContext <;>
    simp [AngleFactory.SetPresentAvailable, hd]

/-- Helper: every single client call on the ANGLE factory preserves the
invariant "if the draw context exists then the upload context exists". -/
theorem angle_step_preserves_draw_upload (f : AngleFactory) (c : FCmd)
    (h : f.drawContext.isSome = true → f.uploadContext.isSome = true) :
    (f.step c).drawContext.isSome = true →
    (f.step c).uploadContext.isSome = true := by
  cases c with
  | getDraw =>
      simp only [AngleFactory.step]
      cases hd : f.drawContext with
      | none =>
          cases hv : f.eglDisplayValid with
          | true =>
              have hup := angle_getUpload_isSome f hv
              simp [AngleFactory.GetDrawContext, hd, hv, hup]
          | false =>
              simp only [AngleFactory.GetDrawContext, hd, hv]
              exact h
      | some c0 =>
          simp only [AngleFactory.GetDrawContext, hd]
          simpa [hd] using h
  | getUpload =>
      simp only [AngleFactory.step]
      cases hu : f.uploadContext with
      | none =>
          cases hv : f.eglDisplayValid with
          | true => simp [AngleFactory.GetResourcesUploadContext, hu, hv]
          | false =>
              simp only [AngleFactory.GetResourcesUploadContext, hu, hv]
              exact h
      | some u0 =>
          simp only [AngleFactory.GetResourcesUploadContext, hu]
          exact h
  | wait =>
      simp only [AngleFactory.step]
      have hctx : ((f.WaitForInitialization).1).drawContext = f.drawContext ∧
          ((f.WaitForInitialization).1).uploadContext = f.uploadContext := by
        by_cases hi : f.isInitialized = true <;>
          by_cases hc : 2 ≤ f.initializationCounter + 1 <;>
            simp [AngleFactory.WaitForInitialization, hi, hc]
      rw [hctx.1, hctx.2]
      exact h
  | setPresent b =>
      simp only [AngleFactory.step]
      rw [(angle_setPresent_contexts f b).1, (angle_setPresent_contexts f b).2]
      exact h
  | resize w hh =>
      simp only [AngleFactory.step]
      rw [angle_resize_draw_isSome f w hh, angle_resize_uploadContext f w hh]
      exact h

/-- C3 amended: on the ANGLE factory the claimed invariant does hold —
for every call order, if the draw context has been created then the
upload context has been created, and a `GetDrawContext` call on a
factory with a valid display always leaves the upload context existing
(the first such call creates the upload context before constructing the
draw context).  The OGL factory does not enforce this: its
`GetDrawContext` creates the draw context directly, sharing with
whatever upload context happens to exist (possibly none), so there the
draw context can exist without the upload context. -/
theorem upload_precedes_draw_angle (f : AngleFactory)
    (hInv : f.drawContext.isSome = true → f.uploadContext.isSome = true) :
    (∀ (cmds : List FCmd),
      (f.run cmds).drawContext.isSome = true →
      (f.run cmds).uploadContext.isSome = true) ∧
    (f.eglDisplayValid = true →
      ((f.GetDrawContext).1).uploadContext.isSome = true) := by
  constructor
  · intro cmds
    induction cmds generalizing f with
    | nil => exact hInv
    | cons c cs ih =>
        exact ih (f.step c) (angle_step_preserves_draw_upload f c hInv)
  · intro hv
    cases hd : f.drawContext with
    | none =>
        have hup := angle_getUpload_isSome f hv
        simp [AngleFactory.GetDrawContext, hd, hv, hup]
    | some c0 =>
        simp only [AngleFactory.GetDrawContext, hd]
        simpa [hd] using hInv

/-- C3 witness: on a freshly constructed ANGLE factory (no contexts
yet), every call order preserves the invariant, and in particular its
first `GetDrawContext` call leaves the upload context existing. -/
theorem upload_precedes_draw_angle_witness :
    ((AngleFactory.construct 800 600).GetDrawContext).1.uploadContext.isSome
      = true :=
  (upload_precedes_draw_angle (AngleFactory.construct 800 600)
    (by decide)).2 (by decide)

/-- C4 counterexample: `Validate()` does not check that *this* specific
context is bound.  A context with identity 5 and present-available set,
while the calling thread has a different context (identity 7) bound,
makes `Validate` return true even though `some 7 ≠ some 5` — the source
only tests `eglGetCurrentContext() != EGL_NO_CONTEXT`, i.e. that some
context is bound. -/
theorem validate_specific_binding_cex :
    ¬ ∀ (c : GfxContext) (current : Option Nat),
        (c.Validate current = true ↔
          (c.presentAvailable = true ∧ current = some c.id)) := by
  intro h
  have h0 := (h (GfxContext.construct 5 none none) (some 7)).mp (by decide)
  exact absurd h0.2 (by decide)

/-- C4 amended: `Validate()` returns true if and only if the context's
present-available flag is true and the calling thread currently has
*some* EGL context bound (`eglGetCurrentContext() != EGL_NO_CONTEXT`) —
not necessarily this one.  Both the ANGLE and the OGL context implement
the identical check. -/
theorem validate_any_context_bound (c : GfxContext) (current : Option Nat) :
    c.Validate current = true ↔
      (c.presentAvailable = true ∧ current ≠ none) := by
  cases current <;> simp [GfxContext.Validate]

/-- C4 witness: a present-available context with identity 5 validates
against a thread whose current context is the unrelated identity 7. -/
theorem validate_any_context_bound_witness :
    (GfxContext.construct 5 none none).Validate (some 7) = true ↔
      ((GfxContext.construct 5 none none).presentAvailable = true ∧
        (some 7 : Option Nat) ≠ none) :=
  validate_any_context_bound (GfxContext.construct 5 none none) (some 7)

/-- C5 counterexample: it is not true that in every resize trace the
prior handle close comes after the successor is bound.  On a factory
with a live 800x600 target and a bound draw context, resizing to
1024x768 emits `closeOldHandle` at position 1 of the event trace while
`bindDrawSurface` is at position 6 — `CreateSharedTexture` closes the
prior shared handle before the new texture even exists, and long before
the draw context is rebound. -/
theorem prior_handle_close_order_cex :
    ¬ ∀ (f : AngleFactory) (w h : Int) (i j : Nat),
        ((f.Resize w h).2)[i]? = some REv.closeOldHandle →
        ((f.Resize w h).2)[j]? = some REv.bindDrawSurface →
        j < i := by
  intro hAll
  have h0 := hAll demoDrawFactory 1024 768 1 6 (by decide) (by decide)
  omega

/-- C5 amended: during a dimension-changing resize on a factory with a
live prior target (texture, exported handle, Pbuffer surface) and a
bound draw context, the events occur in exactly this order: the prior
texture is released, then the prior shared handle is closed, then the
successor texture is created and its handle exported, then the prior
surface is destroyed and the new surface created, and only then is the
draw context rebound.  The prior handle is thus closed *before* the
successor exists; duplicates previously exported to the compositor are
separate kernel objects closed independently by the compositor's
release callback, so they are unaffected by this close. -/
theorem resize_event_order (f : AngleFactory) (w h : Int)
    (hTex : f.sharedTexture.isSome = true)
    (hHnd : f.sharedHandle.isSome = true)
    (hSurf : f.pbufferSurface.isSome = true)
    (hDraw : f.drawContext.isSome = true)
    (hNe : ¬ (w = f.width ∧ h = f.height)) :
    (f.Resize w h).2 =
      [REv.releaseOldTexture, REv.closeOldHandle, REv.createNewTexture,
       REv.exportNewHandle, REv.destroyOldSurface, REv.createNewSurface,
       REv.bindDrawSurface] := by
  obtain ⟨c, hc⟩ := Option.isSome_iff_exists.mp hDraw
  simp [AngleFactory.Resize, AngleFactory.CreateSharedTexture,
        AngleFactory.CreatePbufferSurface, hTex, hHnd, hSurf, hc, hNe]

/-- C5 witness: the concrete resize of the demo factory from 800x600 to
1024x768 produces exactly the amended event order. -/
theorem resize_event_order_witness :
    (demoDrawFactory.Resize 1024 768).2 =
      [REv.releaseOldTexture, REv.closeOldHandle, REv.createNewTexture,
       REv.exportNewHandle, REv.destroyOldSurface, REv.createNewSurface,
       REv.bindDrawSurface] :=
  resize_event_order demoDrawFactory 1024 768 (by decide) (by decide)
    (by decide) (by decide) (by decide)

/-- Helper: once the notifier's last-notification time is at or after
the window base, every further event whose timestamp lies below
`base + kMinFrameInterval` is dropped with the state unchanged, so a
whole list of such events delivers nothing. -/
theorem runNotifier_saturated (cb : Bool) (base : Nat) (ts : List Nat)
    (s : NotifierState)
    (hts : ∀ t ∈ ts, t < base + kMinFrameInterval)
    (hlast : base ≤ s.lastNotification) :
    runNotifier s cb ts = (s, 0) := by
  induction ts with
  | nil => rfl
  | cons t ts ih =>
      have ht := hts t (List.mem_cons_self t ts)
      have hk : kMinFrameInterval = 16 := rfl
      have hdrop : t - s.lastNotification < kMinFrameInterval := by omega
      simp only [runNotifier, notifyFlutterFrameReady, if_pos hdrop]
      simpa using ih (fun u hu => hts u (List.mem_cons_of_mem t hu))

/-- C6: rate limiting of the frame notifier.  For every starting state
and every sequence of frame-ready events whose timestamps all fall
within one minimum inter-notification window
`[base, base + kMinFrameInterval)`, at most one notification is
delivered to the registered external callback; and an event arriving
sooner than `kMinFrameInterval` after the last delivered notification
is dropped outright — the state is unchanged and nothing is queued for
later delivery. -/
theorem frame_rate_limit (s0 : NotifierState) (cb : Bool) (base : Nat)
    (times : List Nat)
    (hwin : ∀ t ∈ times, base ≤ t ∧ t < base + kMinFrameInterval) :
    (runNotifier s0 cb times).2 ≤ 1 ∧
    (∀ (s : NotifierState) (t : Nat),
      t - s.lastNotification < kMinFrameInterval →
      notifyFlutterFrameReady s cb t = (s, false)) := by
  constructor
  · induction times generalizing s0 with
    | nil => simp [runNotifier]
    | cons t ts ih =>
        have ht := hwin t (List.mem_cons_self t ts)
        have hwts : ∀ u ∈ ts, base ≤ u ∧ u < base + kMinFrameInterval :=
          fun u hu => hwin u (List.mem_cons_of_mem t hu)
        by_cases h1 : t - s0.lastNotification < kMinFrameInterval
        · simp only [runNotifier, notifyFlutterFrameReady, if_pos h1]
          simpa using ih s0 hwts
        · by_cases h2 : s0.pending
          · simp only [runNotifier, notifyFlutterFrameReady, if_neg h1,
                       if_pos h2]
            simpa using ih s0 hwts
          · have hrest : runNotifier ⟨t, false⟩ cb ts = (⟨t, false⟩, 0) :=
              runNotifier_saturated cb base ts ⟨t, false⟩
                (fun u hu => (hwts u hu).2) ht.1
            simp only [runNotifier, notifyFlutterFrameReady, if_neg h1,
                       if_neg h2, hrest]
            cases cb <;> simp
  · intro s t hdrop
    simp [notifyFlutterFrameReady, if_pos hdrop]

/-- C6 witness: three frame-ready events at times 100, 105 and 110 all
fall within the window starting at 100, and feeding them to a fresh
notifier with a registered callback delivers at most one notification
(in fact exactly one: the first). -/
theorem frame_rate_limit_witness :
    (∀ t ∈ [100, 105, 110], 100 ≤ t ∧ t < 100 + kMinFrameInterval) ∧
    (runNotifier ⟨0, false⟩ true [100, 105, 110]).2 ≤ 1 :=
  ⟨by decide,
   (frame_rate_limit ⟨0, false⟩ true 100 [100, 105, 110] (by decide)).1⟩

/-- C7: resize semantics.  (1) `comaps_resize_surface` with the
currently active global dimensions returns with the whole state
untouched and no events (no reallocation, no rebinding, no engine
notification); (2) likewise `AgusAngleContextFactory::Resize` with the
factory's current dimensions is the identity; (3) with differing
dimensions the factory reallocates the shared target at the new size —
the new texture identity is strictly newer than the old (generation
increase, given that the old texture's identity was allocated before
the current counter value, as every allocation is) — and the existing
draw context is kept (only its surface field is rebound via
`SetSurface`, the context is not recreated) while the upload context is
untouched; (4) with differing dimensions at the lifecycle layer, if the
framework and drape engine exist, the engine is notified of the new
size. -/
theorem resize_noop_and_effect :
    (∀ (s : WinState) (w h : Int),
      w = s.gSurfaceWidth → h = s.gSurfaceHeight →
      comaps_resize_surface s w h = (s, [])) ∧
    (∀ (f : AngleFactory) (w h : Int), w = f.width → h = f.height →
      f.Resize w h = (f, [])) ∧
    (∀ (f : AngleFactory) (w h : Int),
      ¬ (w = f.width ∧ h = f.height) →
      (∀ t, f.sharedTexture = some t → t < f.nextId) →
      ((f.Resize w h).1.width = w ∧ (f.Resize w h).1.height = h ∧
       (f.Resize w h).1.texWidth = w ∧ (f.Resize w h).1.texHeight = h ∧
       (∀ t t2, f.sharedTexture = some t →
          (f.Resize w h).1.sharedTexture = some t2 → t < t2) ∧
       (∀ c, f.drawContext = some c →
          (f.Resize w h).1.drawContext =
            some (c.SetSurface ((f.Resize w h).1.pbufferSurface))) ∧
       (f.Resize w h).1.uploadContext = f.uploadContext)) ∧
    (∀ (s : WinState) (w h : Int),
      ¬ (w = s.gSurfaceWidth ∧ h = s.gSurfaceHeight) →
      s.frameworkExists = true → s.drapeEngineCreated = true →
      REv.notifyEngineSize ∈ (comaps_resize_surface s w h).2) := by
  refine ⟨?_, ?_, ?_, ?_⟩
  · intro s w h h1 h2
    subst h1
    subst h2
    simp [comaps_resize_surface]
  · intro f w h h1 h2
    subst h1
    subst h2
    simp [AngleFactory.Resize]
  · intro f w h hne hwf
    cases hd : f.drawContext with
    | none =>
        simp only [AngleFactory.Resize, AngleFactory.CreateSharedTexture,
                   AngleFactory.CreatePbufferSurface, hd, if_neg hne]
        refine ⟨trivial, trivial, trivial, trivial, ?_, ?_, trivial⟩
        · intro t t2 ht ht2
          have := hwf t ht
          simp only [Option.some.injEq] at ht2
          omega
        · intro c hc
          simp [hd] at hc
    | some c0 =>
        simp only [AngleFactory.Resize, AngleFactory.CreateSharedTexture,
                   AngleFactory.CreatePbufferSurface, hd, if_neg hne]
        refine ⟨trivial, trivial, trivial, trivial, ?_, ?_, trivial⟩
        · intro t t2 ht ht2
          have := hwf t ht
          simp only [Option.some.injEq] at ht2
          omega
        · intro c hc
          injection hc with h9
          subst h9
          rfl
  · intro s w h hne hfw hde
    cases hf : s.factory <;>
      simp [comaps_resize_surface, hf, hne, hfw, hde]

/-- C7 witness: after creating the surface at 800x600, resizing to the
same 800x600 is a complete no-op at the lifecycle layer. -/
theorem resize_noop_and_effect_witness :
    comaps_resize_surface (PluginCreateSurface WinState.init 800 600) 800 600
      = (PluginCreateSurface WinState.init 800 600, []) :=
  (resize_noop_and_effect).1 (PluginCreateSurface WinState.init 800 600)
    800 600 (by decide) (by decide)

/-- Helper: `createDrapeEngineIfNeeded` never touches the
duplicated-handle counter. -/
theorem createDrape_handleCtr (s : WinState) (w h : Int) :
    (createDrapeEngineIfNeeded s w h).handleCtr = s.handleCtr := by
  unfold createDrapeEngineIfNeeded
  split
  · rfl
  · split
    · rfl
    · split
      · rfl
      · rfl

/-- Helper: surface creation never touches the duplicated-handle
counter. -/
theorem comaps_create_handleCtr (s : WinState) (w h : Int) :
    ((comaps_create_surface s w h).1).handleCtr = s.handleCtr := by
  unfold comaps_create_surface
  split
  · rfl
  · rw [createDrape_handleCtr]

/-- Helper: surface resize never touches the duplicated-handle
counter. -/
theorem comaps_resize_handleCtr (s : WinState) (w h : Int) :
    ((comaps_resize_surface s w h).1).handleCtr = s.handleCtr := by
  by_cases he : w = s.gSurfaceWidth ∧ h = s.gSurfaceHeight <;>
    cases hf : s.factory <;>
      by_cases hfd : s.frameworkExists && s.drapeEngineCreated <;>
        simp [comaps_resize_surface, hf, he, hfd]

/-- Helper: every lifecycle call is monotone in the duplicated-handle
counter (it is bumped by each successful duplication and never reset). -/
theorem stepCmd_handleCtr_mono (s : WinState) (c : SysCmd) :
    s.handleCtr ≤ (s.stepCmd c).handleCtr := by
  cases c with
  | create w h =>
      simp only [WinState.stepCmd, PluginCreateSurface]
      rw [comaps_create_handleCtr]
  | resize w h =>
      simp only [WinState.stepCmd, PluginResizeSurface]
      rw [comaps_resize_handleCtr]
  | destroy =>
      simp [WinState.stepCmd, PluginDestroySurface, comaps_destroy_surface]
  | obtain dupOk =>
      cases hg : comaps_get_shared_handle s <;> cases dupOk <;>
        simp [WinState.stepCmd, ObtainDescriptor, hg]

/-- Helper: handle-counter monotonicity over any call sequence. -/
theorem runCmds_handleCtr_mono (s : WinState) (cmds : List SysCmd) :
    s.handleCtr ≤ (s.runCmds cmds).handleCtr := by
  induction cmds generalizing s with
  | nil => exact Nat.le_refl _
  | cons c cs ih =>
      exact Nat.le_trans (stepCmd_handleCtr_mono s c) (ih (s.stepCmd c))

/-- Helper: when the obtain callback returns a descriptor, that
descriptor carries the handle freshly allocated by this very call (the
current counter value), the counter is bumped, and the release callback
closes exactly that handle. -/
theorem obtain_some_spec (s : WinState) (dupOk : Bool)
    (d : GpuSurfaceDescriptor)
    (hd : (ObtainDescriptor s dupOk).2 = some d) :
    d.handle = s.handleCtr ∧
    ((ObtainDescriptor s dupOk).1).handleCtr = s.handleCtr + 1 ∧
    descriptorReleaseCloses d = some d.handle := by
  cases hg : comaps_get_shared_handle s with
  | none => simp [ObtainDescriptor, hg] at hd
  | some r =>
      cases dupOk with
      | false => simp [ObtainDescriptor, hg] at hd
      | true =>
          simp only [ObtainDescriptor, hg] at hd
          injection hd with h9
          subst h9
          refine ⟨rfl, ?_, rfl⟩
          simp [ObtainDescriptor, hg]

/-- C8: every obtain-descriptor call either returns null — exactly when
the shared handle is unavailable (no factory, or no exported handle) or
`DuplicateHandle` fails, and this is a plain null return, not a thrown
error (the model is a total function into `Option`) — or returns a
descriptor whose handle is freshly allocated by that very call, is
never equal to a handle returned by any later call in any call
sequence (so no long-lived handle is ever reused across calls), and
whose release callback closes exactly that duplicated handle. -/
theorem obtain_descriptor_fresh_handle (s : WinState) (dupOk : Bool) :
    ((ObtainDescriptor s dupOk).2 = none ↔
      (comaps_get_shared_handle s = none ∨ dupOk = false)) ∧
    (∀ (d : GpuSurfaceDescriptor), (ObtainDescriptor s dupOk).2 = some d →
      d.handle = s.handleCtr ∧
      ((ObtainDescriptor s dupOk).1).handleCtr = s.handleCtr + 1 ∧
      descriptorReleaseCloses d = some d.handle) ∧
    (∀ (cmds : List SysCmd) (dupOk2 : Bool)
        (d d2 : GpuSurfaceDescriptor),
      (ObtainDescriptor s dupOk).2 = some d →
      (ObtainDescriptor (((ObtainDescriptor s dupOk).1).runCmds cmds)
          dupOk2).2 = some d2 →
      d.handle < d2.handle) := by
  refine ⟨?_, fun d hd => obtain_some_spec s dupOk d hd, ?_⟩
  · cases hg : comaps_get_shared_handle s <;> cases dupOk <;>
      simp [ObtainDescriptor, hg]
  · intro cmds dupOk2 d d2 hd hd2
    obtain ⟨ha, hb, -⟩ := obtain_some_spec s dupOk d hd
    obtain ⟨hc, -, -⟩ := obtain_some_spec _ dupOk2 d2 hd2
    have hm := runCmds_handleCtr_mono ((ObtainDescriptor s dupOk).1) cmds
    omega

/-- C8 witness: obtaining a descriptor right after surface creation at
640x480 yields the concrete descriptor with fresh handle 0, and its
release callback closes exactly handle 0. -/
theorem obtain_descriptor_fresh_handle_witness :
    (ObtainDescriptor (PluginCreateSurface WinState.init 640 480) true).2 =
      some { handle := 0, width := 640, height := 480, visibleWidth := 640,
             visibleHeight := 480, format := PixelFormat.BGRA8888,
             releaseContext := 0 } ∧
    descriptorReleaseCloses
        { handle := 0, width := 640, height := 480, visibleWidth := 640,
          visibleHeight := 480, format := PixelFormat.BGRA8888,
          releaseContext := 0 } = some 0 :=
  ⟨by decide,
   ((obtain_descriptor_fresh_handle
        (PluginCreateSurface WinState.init 640 480) true).2.1
      { handle := 0, width := 640, height := 480, visibleWidth := 640,
        visibleHeight := 480, format := PixelFormat.BGRA8888,
        releaseContext := 0 } (by decide)).2.2⟩

/-- Helper: a second `GetDrawContext` call on the ANGLE factory returns
exactly what the first returned and leaves the state fixed. -/
theorem angle_getDraw_fix (f : AngleFactory) :
    ((f.GetDrawContext).1).GetDrawContext = f.GetDrawContext := by
  cases hd : f.drawContext with
  | some c => simp [AngleFactory.GetDrawContext, hd]
  | none =>
      cases hv : f.eglDisplayValid with
      | false => simp [AngleFactory.GetDrawContext, hd, hv]
      | true => simp [AngleFactory.GetDrawContext, hd, hv]

/-- Helper: a second `GetResourcesUploadContext` call on the ANGLE
factory returns exactly what the first returned and leaves the state
fixed. -/
theorem angle_getUpload_fix (f : AngleFactory) :
    ((f.GetResourcesUploadContext).1).GetResourcesUploadContext =
      f.GetResourcesUploadContext := by
  cases hu : f.uploadContext with
  | some c => simp [AngleFactory.GetResourcesUploadContext, hu]
  | none =>
      cases hv : f.eglDisplayValid with
      | false => simp [AngleFactory.GetResourcesUploadContext, hu, hv]
      | true => simp [AngleFactory.GetResourcesUploadContext, hu, hv]

/-- Helper: a second `GetDrawContext` call on the OGL factory returns
exactly what the first returned and leaves the state fixed. -/
theorem ogl_getDraw_fix (f : OGLFactory) :
    ((f.GetDrawContext).1).GetDrawContext = f.GetDrawContext := by
  cases hd : f.drawContext <;> simp [OGLFactory.GetDrawContext, hd]

/-- Helper: a second `GetResourcesUploadContext` call on the OGL factory
returns exactly what the first returned and leaves the state fixed. -/
theorem ogl_getUpload_fix (f : OGLFactory) :
    ((f.GetResourcesUploadContext).1).GetResourcesUploadContext =
      f.GetResourcesUploadContext := by
  cases hu : f.uploadContext <;>
    simp [OGLFactory.GetResourcesUploadContext, hu]

/-- C9: idempotence of the context getters on both factories.  Any
number of repeated calls returns exactly the pair (state, returned
instance) of the first call, so every call returns the identical
context instance and no state change (in particular no construction)
happens after the first call; a call made while the context already
exists is a pure read returning that instance; and the first call on a
factory without the context (with a valid display, for the ANGLE
factory) constructs it and returns precisely the stored instance. -/
theorem get_context_idempotent :
    (∀ (f : AngleFactory) (n : Nat), f.getDrawN n = f.GetDrawContext) ∧
    (∀ (f : AngleFactory) (n : Nat),
      f.getUploadN n = f.GetResourcesUploadContext) ∧
    (∀ (f : OGLFactory) (n : Nat), f.getDrawN n = f.GetDrawContext) ∧
    (∀ (f : OGLFactory) (n : Nat),
      f.getUploadN n = f.GetResourcesUploadContext) ∧
    (∀ (f : AngleFactory) (c : GfxContext), f.drawContext = some c →
      f.GetDrawContext = (f, some c.id)) ∧
    (∀ (f : AngleFactory) (c : GfxContext), f.uploadContext = some c →
      f.GetResourcesUploadContext = (f, some c.id)) ∧
    (∀ (f : OGLFactory) (c : GfxContext), f.drawContext = some c →
      f.GetDrawContext = (f, some c.id)) ∧
    (∀ (f : OGLFactory) (c : GfxContext), f.uploadContext = some c →
      f.GetResourcesUploadContext = (f, some c.id)) ∧
    (∀ (f : AngleFactory), f.drawContext = none →
      f.eglDisplayValid = true →
      ((f.GetDrawContext).1).drawContext.isSome = true ∧
      (f.GetDrawContext).2 =
        ((f.GetDrawContext).1).drawContext.map (·.id)) ∧
    (∀ (f : OGLFactory), f.drawContext = none →
      ((f.GetDrawContext).1).drawContext.isSome = true ∧
      (f.GetDrawContext).2 =
        ((f.GetDrawContext).1).drawContext.map (·.id)) := by
  refine ⟨?_, ?_, ?_, ?_, ?_, ?_, ?_, ?_, ?_, ?_⟩
  · intro f n
    induction n with
    | zero => rfl
    | succ n ih => rw [AngleFactory.getDrawN, ih, angle_getDraw_fix]
  · intro f n
    induction n with
    | zero => rfl
    | succ n ih => rw [AngleFactory.getUploadN, ih, angle_getUpload_fix]
  · intro f n
    induction n with
    | zero => rfl
    | succ n ih => rw [OGLFactory.getDrawN, ih, ogl_getDraw_fix]
  · intro f n
    induction n with
    | zero => rfl
    | succ n ih => rw [OGLFactory.getUploadN, ih, ogl_getUpload_fix]
  · intro f c hd
    simp [AngleFactory.GetDrawContext, hd]
  · intro f c hu
    simp [AngleFactory.GetResourcesUploadContext, hu]
  · intro f c hd
    simp [OGLFactory.GetDrawContext, hd]
  · intro f c hu
    simp [OGLFactory.GetResourcesUploadContext, hu]
  · intro f hd hv
    simp [AngleFactory.GetDrawContext, hd, hv]
  · intro f hd
    simp [OGLFactory.GetDrawContext, hd]

/-- C9 witness: on the freshly constructed ANGLE factory the draw
context already present after one `GetDrawContext` call is returned
unchanged by a repeat call (pure read of the same instance). -/
theorem get_context_idempotent_witness :
    demoDrawFactory.GetDrawContext = (demoDrawFactory, some 5) :=
  (get_context_idempotent).2.2.2.2.1 demoDrawFactory
    (GfxContext.construct 5 (some 2) (some 4)) (by decide)

/-- C10: a `SetPresentAvailable` call made before the draw context
exists is lost, not deferred: on both factories it changes no state at
all; the factory-level call never modifies the upload context (on any
state); and a draw context created afterwards starts with its
present-available flag true, regardless of any earlier
`SetPresentAvailable false`. -/
theorem set_present_before_draw_lost :
    (∀ (f : AngleFactory) (b : Bool), f.drawContext = none →
      f.SetPresentAvailable b = f) ∧
    (∀ (f : AngleFactory) (b : Bool),
      (f.SetPresentAvailable b).uploadContext = f.uploadContext) ∧
    (∀ (f : AngleFactory) (b : Bool) (c : GfxContext),
      f.drawContext = none →
      (((f.SetPresentAvailable b).GetDrawContext).1).drawContext = some c →
      c.presentAvailable = true) ∧
    (∀ (f : OGLFactory) (b : Bool), f.drawContext = none →
      f.SetPresentAvailable b = f) ∧
    (∀ (f : OGLFactory) (b : Bool),
      (f.SetPresentAvailable b).uploadContext = f.uploadContext) ∧
    (∀ (f : OGLFactory) (b : Bool) (c : GfxContext),
      f.drawContext = none →
      (((f.SetPresentAvailable b).GetDrawContext).1).drawContext = some c →
      c.presentAvailable = true) := by
  refine ⟨?_, ?_, ?_, ?_, ?_, ?_⟩
  · intro f b hd
    simp [AngleFactory.SetPresentAvailable, hd]
  · intro f b
    exact (angle_setPresent_contexts f b).2
  · intro f b c hd hc
    have h1 : f.SetPresentAvailable b = f := by
      simp [AngleFactory.SetPresentAvailable, hd]
    rw [h1] at hc
    cases hv : f.eglDisplayValid with
    | false => simp [AngleFactory.GetDrawContext, hd, hv] at hc
    | true =>
        simp [AngleFactory.GetDrawContext, GfxContext.construct, hd, hv]
          at hc
        rw [← hc]
  · intro f b hd
    simp [OGLFactory.SetPresentAvailable, hd]
  · intro f b
    cases hd : f.drawContext <;>
      simp [OGLFactory.SetPresentAvailable, hd]
  · intro f b c hd hc
    have h1 : f.SetPresentAvailable b = f := by
      simp [OGLFactory.SetPresentAvailable, hd]
    rw [h1] at hc
    simp [OGLFactory.GetDrawContext, GfxContext.construct, hd] at hc
    rw [← hc]

/-- C10 witness: on a freshly constructed ANGLE factory (no draw
context), `SetPresentAvailable false` changes nothing at all. -/
theorem set_present_before_draw_lost_witness :
    (AngleFactory.construct 800 600).SetPresentAvailable false =
      AngleFactory.construct 800 600 :=
  (set_present_before_draw_lost).1 (AngleFactory.construct 800 600) false
    (by decide)

end agus
